import Mathlib

/-!
Verification development for the ccip-agent repository: a shallow embedding of
the moveToken transfer orchestration (src/mcp-server.mts), the conversational
driver's tool-invocation protocol (src/llm-client.ts), the timeout wrappers,
and the configuration validator (src/config.ts), together with theorems that
settle the specification's claims about them.
-/

namespace CcipAgent

/-! # JSON values

The tool-argument payloads are flat JSON objects whose values are strings or
integers (the moveToken input schema admits nothing else). A `JObj` is the
insertion-ordered key/value listing of such an object; assigning an existing
key overwrites its value in place, mirroring JavaScript object assignment. -/

/-- A JSON value occurring in a tool-argument object: a string or an integer. -/
inductive JValue where
  | str (s : String)
  | num (n : Int)
deriving DecidableEq, Repr

/-- A flat JSON object, in insertion order. -/
abbrev JObj := List (String × JValue)

/-- Assignment obj[k] = v with JavaScript semantics: an existing key keeps its
position and gets the new value, a new key is appended. -/
def setKey : JObj → String → JValue → JObj
  | [], k, v => [(k, v)]
  | (k', v') :: rest, k, v =>
      if k' = k then (k', v) :: rest else (k', v') :: setKey rest k v

/-! # A JSON.parse model

Models the JavaScript JSON.parse call at src/llm-client.ts line 209,
restricted to the shapes the tool protocol actually exchanges: a single flat
object with double-quoted keys and values that are plain strings (no escape
sequences) or integers. Inputs outside this subset (nested objects, arrays,
floats, escapes, bare literals) are rejected with none, exactly as the source
falls into its catch branch on a parse failure. -/

/-- JSON whitespace: space, tab, newline, carriage return. -/
def isJsonWs (c : Char) : Bool := c = ' ' || c = '\t' || c = '\n' || c = '\r'

/-- Drop leading JSON whitespace. -/
def skipWs : List Char → List Char
  | [] => []
  | c :: cs => if isJsonWs c then skipWs cs else c :: cs

/-- Parse the body of a double-quoted string literal (the opening quote is
already consumed); escape sequences are outside the modelled subset. -/
def parseStringLit : List Char → Option (List Char × List Char)
  | [] => none
  | c :: cs =>
      if c = '"' then some ([], cs)
      else if c = '\\' then none
      else
        match parseStringLit cs with
        | some (s, rest) => some (c :: s, rest)
        | none => none

/-- Numeric value of a run of decimal digit characters. -/
def digitsToNat (ds : List Char) : Nat :=
  ds.foldl (fun n c => n * 10 + (c.toNat - 48)) 0

/-- Parse one JSON value of the modelled subset: a string or an optionally
negated integer. -/
def parseJValue (cs : List Char) : Option (JValue × List Char) :=
  match skipWs cs with
  | '"' :: rest =>
      match parseStringLit rest with
      | some (s, r) => some (.str (String.mk s), r)
      | none => none
  | '-' :: rest =>
      let ds := rest.takeWhile Char.isDigit
      if ds.isEmpty then none
      else some (.num (-(digitsToNat ds : Int)), rest.drop ds.length)
  | cs2 =>
      let ds := cs2.takeWhile Char.isDigit
      if ds.isEmpty then none
      else some (.num ((digitsToNat ds : Int)), cs2.drop ds.length)

/-- Parse the members of an object, starting at the first key, consuming the
closing brace; fuel bounds the recursion (each member consumes characters). -/
def parseMembers : Nat → JObj → List Char → Option (JObj × List Char)
  | 0, _, _ => none
  | Nat.succ fuel, acc, cs =>
      match skipWs cs with
      | '"' :: rest =>
          match parseStringLit rest with
          | some (k, r1) =>
              match skipWs r1 with
              | ':' :: r2 =>
                  match parseJValue r2 with
                  | some (v, r3) =>
                      let acc2 := setKey acc (String.mk k) v
                      match skipWs r3 with
                      | ',' :: r4 => parseMembers fuel acc2 r4
                      | '}' :: r5 => some (acc2, r5)
                      | _ => none
                  | none => none
              | _ => none
          | none => none
      | _ => none

/-- JSON.parse on a flat object (the modelled subset): the whole input must be
one object, with nothing but whitespace after it. -/
def jsonParse (s : String) : Option JObj :=
  match skipWs s.data with
  | '{' :: rest =>
      match skipWs rest with
      | '}' :: r2 => if (skipWs r2).isEmpty then some [] else none
      | _ =>
          match parseMembers (s.data.length + 1) [] rest with
          | some (obj, r3) => if (skipWs r3).isEmpty then some obj else none
          | none => none
  | _ => none

/-! # JavaScript string helpers

The driver manipulates the model reply with startsWith, split, slice, trim,
indexOf and substring. These helpers reproduce those operations on the
character list of a string (the replies involved are ASCII, where JavaScript
UTF-16 indices and character indices agree). -/

/-- JavaScript s.startsWith(p). -/
def jsStartsWith (s p : String) : Bool := List.isPrefixOf p.data s.data

/-- JavaScript s.split(newline)[0]: the characters before the first newline. -/
def jsFirstLine (s : String) : String := String.mk (s.data.takeWhile (fun c => c ≠ '\n'))

/-- JavaScript s.trim() on the whitespace the protocol uses. -/
def jsTrim (s : String) : String :=
  String.mk (((s.data.dropWhile isJsonWs).reverse.dropWhile isJsonWs).reverse)

/-- JavaScript word characters, the regex class bacwards-w. -/
def isWordChar (c : Char) : Bool := c.isAlpha || c.isDigit || c = '_'

/-- Does the character list contain the given (nonempty) pattern as a
contiguous substring: JavaScript s.includes(pattern). -/
def containsSub : List Char → List Char → Bool
  | _, [] => true
  | [], _ :: _ => false
  | c :: cs, p => List.isPrefixOf p (c :: cs) || containsSub cs p

/-! # Tool-invocation extraction

Embeds the driver's tool-line handling, src/llm-client.ts lines 179-245: the
TOOL: marker test, the first-line extraction, the two accepted surface
syntaxes, and the three-tier argument parsing (strict JSON, then a key:value
scrape, then an empty mapping). -/

/-- The fixed tool-invocation marker the driver tests the reply against. -/
def toolMarker : String := "TOOL:"

/-- The parenthesised surface syntax, regex caret (backslash-w+) backslash-(
backslash-s* ( brace .* brace ) backslash-s* backslash-) dollar at line 190 of
src/llm-client.ts: a word-character tool name, an opening parenthesis, and a
brace-delimited payload (possibly whitespace-padded) up to a closing
parenthesis that ends the line. Returns the name and the captured payload. -/
def parseParenForm (rest : String) : Option (String × String) :=
  let name := rest.data.takeWhile isWordChar
  if name.isEmpty then none
  else
    match rest.data.drop name.length with
    | '(' :: inner =>
        match inner.reverse with
        | ')' :: innerRev =>
            let trimmed :=
              ((innerRev.reverse.dropWhile isJsonWs).reverse.dropWhile isJsonWs).reverse
            match trimmed with
            | '{' :: tl =>
                match tl.reverse with
                | '}' :: _ => some (String.mk name, String.mk trimmed)
                | _ => none
            | _ => none
        | _ => none
    | _ => none

/-- The original surface syntax, lines 196-202 of src/llm-client.ts: the text
before the first space is the tool name, the text after it (trimmed) is the
argument payload; with no space the whole line is the name and the payload is
empty. -/
def spaceSplit (rest : String) : String × String :=
  let before := rest.data.takeWhile (fun c => c ≠ ' ')
  if before.length = rest.data.length then (rest, "")
  else (String.mk before, jsTrim (String.mk (rest.data.drop (before.length + 1))))

/-- Lines 183-203 of src/llm-client.ts: drop the five marker characters, trim,
then try the parenthesised syntax and fall back to the space split. -/
def extractToolCall (toolLine : String) : String × String :=
  let rest := jsTrim (String.mk (toolLine.data.drop 5))
  match parseParenForm rest with
  | some na => na
  | none => spaceSplit rest

/-- One match of the scrape regex (backslash-w+): backslash-s* quoted-string,
or (backslash-w+): backslash-s* digits, attempted at the head of the list;
returns the key/value pair and the remaining characters after the match. -/
def scrapeMatchAt (cs : List Char) : Option ((String × JValue) × List Char) :=
  let key := cs.takeWhile isWordChar
  if key.isEmpty then none
  else
    match cs.drop key.length with
    | ':' :: rest =>
        let rest2 := rest.dropWhile isJsonWs
        match rest2 with
        | '"' :: r3 =>
            let content := r3.takeWhile (fun c => c ≠ '"')
            if content.isEmpty then none
            else
              match r3.drop content.length with
              | '"' :: r4 => some ((String.mk key, .str (String.mk content)), r4)
              | _ => none
        | _ =>
            let ds := rest2.takeWhile Char.isDigit
            if ds.isEmpty then none
            else some ((String.mk key, .num ((digitsToNat ds : Int))), rest2.drop ds.length)
    | _ => none

/-- Global left-to-right scan of the scrape regex (line 221 of
src/llm-client.ts): on a failed match the scan advances one character, on a
successful match it continues after the match; fuel bounds the recursion. -/
def scrapeScan : Nat → List Char → List (String × JValue)
  | 0, _ => []
  | Nat.succ _, [] => []
  | Nat.succ fuel, c :: cs =>
      match scrapeMatchAt (c :: cs) with
      | some (kv, rest) => kv :: scrapeScan fuel rest
      | none => scrapeScan fuel cs

/-- All key/value pairs the scrape regex finds in the payload. -/
def scrape (s : String) : List (String × JValue) := scrapeScan (s.data.length + 1) s.data

/-- The guard at line 219 of src/llm-client.ts admitting the manual scrape:
the payload opens with a brace, contains a double quote, and contains no
backslash-escaped quote. -/
def scrapeCond (s : String) : Bool :=
  (match s.data with | '{' :: _ => true | _ => false)
    && s.data.contains '"'
    && !(containsSub s.data ['\\', '"'])

/-- The pairs the forEach loop at lines 224-231 folds into a fresh object. -/
def buildObj (pairs : List (String × JValue)) : JObj :=
  pairs.foldl (fun o kv => setKey o kv.1 kv.2) []

/-- The three-tier argument parsing of src/llm-client.ts lines 205-245: an
empty payload is never parsed (args stay empty); otherwise strict JSON.parse
is tried; on failure, if the scrape guard holds and the scrape finds at least
one pair those pairs form the object; in every remaining case the mapping is
empty (both throw paths land in the catch that keeps args as the empty
object). -/
def parseToolArgs (argsJson : String) : JObj :=
  if argsJson.data.isEmpty then []
  else
    match jsonParse argsJson with
    | some obj => obj
    | none =>
        if scrapeCond argsJson then
          match scrape argsJson with
          | [] => []
          | pairs => buildObj pairs
        else []

/-- The full parse of a tool-invocation reply: only the first line is kept
(line 182 of src/llm-client.ts), then the name and payload are extracted and
the payload parsed. -/
def parseToolLine (reply : String) : String × JObj :=
  let nameArgs := extractToolCall (jsFirstLine reply)
  (nameArgs.1, parseToolArgs nameArgs.2)

/-! # The conversational driver's turn -/

/-- The canned completion substituted when the follow-up reply is itself
tool-invocation-shaped (lines 279-281 of src/llm-client.ts). -/
def cannedCompletion : String :=
  "The token transfer has been completed successfully! The transaction details are shown above."

/-- The instruction appended to the follow-up prompt (line 272 of
src/llm-client.ts) forbidding further tool invocation. -/
def noToolInstruction : String :=
  "\n\nProvide a helpful summary of the result to the user. Do not call any additional tools."

/-- What one user turn of the driver loop produces. -/
structure TurnOutcome where
  /-- The tool dispatches issued during the turn, in order. -/
  dispatched : List (String × JObj)
  /-- The prompt of the follow-up completion request, when one is issued. -/
  followUpPrompt : Option String
  /-- The assistant utterance appended to the transcript at the end of the turn. -/
  assistantMsg : String

/-- One user turn of the driver loop, src/llm-client.ts lines 176-291, on the
path where external calls succeed: historyText is the transcript so far,
llmReply the first completion, toolExec the tool execution (name and parsed
arguments to result text), followUp the second completion. A reply that
starts with the marker is dispatched once; the tool result and the
no-more-tools instruction form the follow-up prompt; a marker-shaped
follow-up is replaced by the canned completion. A reply without the marker
dispatches nothing. -/
def processTurn (historyText llmReply : String) (toolExec : String → JObj → String)
    (followUp : String) : TurnOutcome :=
  if jsStartsWith llmReply toolMarker then
    let nameArgs := parseToolLine llmReply
    let output := toolExec nameArgs.1 nameArgs.2
    let prompt := historyText ++ "\nTool result for " ++ nameArgs.1 ++ ": " ++ output
      ++ noToolInstruction
    if jsStartsWith followUp toolMarker then
      { dispatched := [nameArgs], followUpPrompt := some prompt,
        assistantMsg := cannedCompletion }
    else
      { dispatched := [nameArgs], followUpPrompt := some prompt, assistantMsg := followUp }
  else
    { dispatched := [], followUpPrompt := none, assistantMsg := llmReply }

/-! # The moveToken transfer orchestration

Embeds the moveToken tool handler of src/mcp-server.mts (lines 63-157 of the
first variant; the second variant's handler at lines 208-291 is line-for-line
the same logic). The three external operations - the ERC-20 balanceOf read,
the router allowance approval, and the cross-chain transferTokens call - are
opaque providers; each is modelled by the Except outcome the await would
settle to. Amounts are integers: the handler converts input.amount with
BigInt, which on an integral JavaScript number (the zod schema admits any
number, including negatives) yields that integer; the uint256 balance is an
integer as well. The handler contains no try/catch, so a provider error
propagates out of it unhandled; the trace records the external calls actually
issued, in order. -/

/-- The transfer tool's input, after zod validation: moveToken's inputSchema. -/
structure TransferInput where
  tokenAddress : String
  amount : Int
  destinationAccount : String

/-- The environment values the handler destructures from process.env. -/
structure ServerEnv where
  routerAddress : String
  destinationChainSelector : String

/-- One external on-chain call the handler can issue, with its arguments. -/
inductive ExtCall where
  /-- publicClient.readContract balanceOf(owner) on the token. -/
  | balanceRead (token owner : String)
  /-- ccip.approveRouter with its waitForReceipt flag. -/
  | approveRouter (router token : String) (amount : Int) (waitForReceipt : Bool)
  /-- ccip.transferTokens. -/
  | transferTokens (router token : String) (amount : Int) (destination chainSelector : String)
deriving DecidableEq, Repr

/-- The settled outcomes of the three opaque providers for one invocation. -/
structure Providers where
  /-- What the balanceOf read settles to. -/
  balanceOf : Except String Int
  /-- What ccip.approveRouter settles to. -/
  approveRouter : Except String Unit
  /-- What ccip.transferTokens settles to: a txHash and a messageId. -/
  transferTokens : Except String (String × String)

/-- The insufficient-balance response text (line 117 of src/mcp-server.mts). -/
def insufficientMsg (balance amount : Int) : String :=
  s!"❌ Insufficient token balance: you have {balance}, but need {amount}"

/-- The completed-transfer response text (line 145 of src/mcp-server.mts). -/
def movedMsg (amount : Int) (token dest txHash messageId : String) : String :=
  s!"Moved {amount} tokens from {token} to {dest} on Arbitrum Sepolia with txHash {txHash} and message ID {messageId}."

/-- The moveToken handler, lines 74-157 of src/mcp-server.mts: read the
balance; if it is below the requested amount answer the insufficient-balance
text and stop; otherwise approve the router for the amount (waiting for the
receipt) and then submit the cross-chain transfer, answering the completion
text with the returned txHash and messageId. acct is the sender address
derived from the signing key. The result pairs what the handler settles to
(ok response text, or the uncaught provider error) with the ordered trace of
external calls issued. -/
def moveToken (env : ServerEnv) (p : Providers) (acct : String) (input : TransferInput) :
    Except String String × List ExtCall :=
  let router := env.routerAddress
  let token := input.tokenAddress
  let destination := input.destinationAccount
  let chainSelector := env.destinationChainSelector
  let amount := input.amount
  match p.balanceOf with
  | .error e => (.error e, [.balanceRead token acct])
  | .ok balance =>
      if balance < amount then
        (.ok (insufficientMsg balance amount), [.balanceRead token acct])
      else
        match p.approveRouter with
        | .error e =>
            (.error e,
             [.balanceRead token acct, .approveRouter router token amount true])
        | .ok _ =>
            match p.transferTokens with
            | .error e =>
                (.error e,
                 [.balanceRead token acct, .approveRouter router token amount true,
                  .transferTokens router token amount destination chainSelector])
            | .ok (txHash, messageId) =>
                (.ok (movedMsg amount token destination txHash messageId),
                 [.balanceRead token acct, .approveRouter router token amount true,
                  .transferTokens router token amount destination chainSelector])

/-- Is the call an approveRouter call. -/
def isApprove : ExtCall → Bool
  | .approveRouter .. => true
  | _ => false

/-- Is the call a transferTokens call. -/
def isSend : ExtCall → Bool
  | .transferTokens .. => true
  | _ => false

/-- Is the call a balanceOf read. -/
def isBalanceRead : ExtCall → Bool
  | .balanceRead .. => true
  | _ => false

/-! # The bounded-operation wrappers

Embeds callLLM (src/llm-client.ts lines 37-75) and callToolWithTimeout
(lines 88-103). The wrapped external exchange is opaque; for the wrapper's
contract only whether it settles within the timer's budget matters, and with
what Except outcome if it does. -/

/-- How the wrapped operation stands when the wrapper's timer would fire:
settled (with its own result or error) or still pending. -/
inductive OpOutcome (α : Type) where
  | settled (r : Except String α)
  | pending

/-- The millisecond delay of the abort timer in callLLM: setTimeout at
line 47 of src/llm-client.ts. -/
def llmTimeoutMs : Nat := 100000

/-- The error message callLLM raises when the abort fires (line 71 of
src/llm-client.ts). -/
def llmTimeoutErrorMsg : String := "LLM request timed out after 30 seconds"

/-- The callLLM wrapper around the completion exchange: a settled exchange
passes its own outcome through (non-abort errors are rethrown as they are);
an exchange still pending when the timer fires is aborted and surfaces the
fixed timeout message. -/
def callLLM (op : OpOutcome String) : Except String String :=
  match op with
  | .settled r => r
  | .pending => .error llmTimeoutErrorMsg

/-- The timeout message of callToolWithTimeout (line 91 of
src/llm-client.ts): it states timeoutMs/1000 seconds (the division is exact
at the one call site's budget of 300000). -/
def toolTimeoutMsg (toolName : String) (timeoutMs : Nat) : String :=
  s!"Tool '{toolName}' timed out after {timeoutMs / 1000} seconds"

/-- The default tool-execution budget (the timeoutMs parameter default). -/
def toolTimeoutDefaultMs : Nat := 300000

/-- The callToolWithTimeout wrapper: a settled tool call passes its own
outcome through; a call still pending when the timer fires is rejected with
the timeout message naming the budget actually waited. -/
def callToolWithTimeout (op : OpOutcome String) (toolName : String) (timeoutMs : Nat) :
    Except String String :=
  match op with
  | .settled r => r
  | .pending => .error (toolTimeoutMsg toolName timeoutMs)

/-! # Configuration validation and server startup

Embeds config.ts and the start() entry point of src/mcp-server.mts. An
environment variable is either absent or set to a string; the config object
copies the raw values, and validateConfig filters the four required keys by
JavaScript truthiness (absent and empty both count as missing). The server's
start() registers the three tools and listens on port 3001; it reads no
configuration and calls no validator - validateConfig is exported by
config.ts but invoked by neither entry point, so startup cannot fail on a
missing variable. -/

/-- The environment variables the system reads (absent or set). -/
structure Env where
  RPC_URL : Option String
  PRIVATE_KEY : Option String
  ROUTER_ADDRESS : Option String
  TOKEN_ADDRESS : Option String
  DESTINATION_CHAIN_SELECTOR : Option String
  DESTINATION_ACCOUNT : Option String

/-- JavaScript truthiness of an optional string: set and nonempty. -/
def truthy : Option String → Bool
  | none => false
  | some s => !s.isEmpty

/-- The config object of config.ts lines 6-17 (the fields validateConfig
inspects). -/
structure Config where
  rpcUrl : Option String
  privateKey : Option String
  routerAddress : Option String
  tokenAddress : Option String
  destinationChainSelector : Option String

/-- Building the config object from the environment. -/
def configOf (e : Env) : Config :=
  { rpcUrl := e.RPC_URL
    privateKey := e.PRIVATE_KEY
    routerAddress := e.ROUTER_ADDRESS
    tokenAddress := e.TOKEN_ADDRESS
    destinationChainSelector := e.DESTINATION_CHAIN_SELECTOR }

/-- The required-key list of validateConfig (config.ts line 20). -/
def requiredKeys : List String := ["rpcUrl", "privateKey", "routerAddress", "destinationChainSelector"]

/-- Field lookup by key name, as the indexed access config[key] performs. -/
def configGet (c : Config) (k : String) : Option String :=
  if k = "rpcUrl" then c.rpcUrl
  else if k = "privateKey" then c.privateKey
  else if k = "routerAddress" then c.routerAddress
  else if k = "tokenAddress" then c.tokenAddress
  else if k = "destinationChainSelector" then c.destinationChainSelector
  else none

/-- validateConfig, config.ts lines 19-26: filter the required keys whose
config value is falsy; if any remain, raise the error naming them. -/
def validateConfig (e : Env) : Except String Unit :=
  let missing := requiredKeys.filter (fun k => !truthy (configGet (configOf e) k))
  if missing.length > 0 then
    .error ("Missing required environment variables: " ++ String.intercalate ", " missing)
  else .ok ()

/-- The tool names start() registers (src/mcp-server.mts lines 33-158). -/
def registeredTools : List String := ["helloWorld", "getCurrentTime", "moveToken"]

/-- The start() entry point of src/mcp-server.mts: it registers the three
tools, installs the /rpc route and listens on port 3001. It performs no
environment read and no validation at startup (the handler reads process.env
only when a tool call arrives), so it succeeds whatever the environment. -/
def serverStart (_ : Env) : Except String (List String × Nat) :=
  .ok (registeredTools, 3001)

/-- A concrete tool execution used to instantiate the driver theorems. -/
def stubExec : String → JObj → String := fun _ _ => "tool output"

/-! # Theorems -/

/-- Testing a pattern against the longest newline-free segment of a list is
the same as testing it against the list, when the pattern itself satisfies
the predicate throughout. -/
theorem isPrefixOf_takeWhile_eq (p : Char → Bool) :
    ∀ (m l : List Char), (∀ c ∈ m, p c = true) →
      List.isPrefixOf m (l.takeWhile p) = List.isPrefixOf m l := by
  intro m
  induction m with
  | nil => intro l _; simp [List.isPrefixOf]
  | cons c m ih =>
    intro l h
    cases l with
    | nil => simp [List.takeWhile]
    | cons d l' =>
      cases hd : p d with
      | true =>
        simp only [List.takeWhile, hd, List.isPrefixOf]
        rw [ih l' (fun x hx => h x (List.mem_cons_of_mem _ hx))]
      | false =>
        have hcd : (c == d) = false := by
          cases hcd : c == d with
          | false => rfl
          | true =>
            exfalso
            have hc : c = d := by simpa using hcd
            have := h c (List.mem_cons_self _ _)
            rw [hc, hd] at this
            exact Bool.false_ne_true this
        simp [List.takeWhile, hd, List.isPrefixOf, hcd]

/-- The marker test on the first line agrees with the marker test on the
whole reply, because the marker contains no newline. -/
theorem jsStartsWith_firstLine (s : String) :
    jsStartsWith (jsFirstLine s) toolMarker = jsStartsWith s toolMarker := by
  show List.isPrefixOf toolMarker.data (s.data.takeWhile fun c => decide (c ≠ '\n')) =
    List.isPrefixOf toolMarker.data s.data
  exact isPrefixOf_takeWhile_eq _ _ _ (by decide)

/-- Taking the first line twice is the same as taking it once. -/
theorem jsFirstLine_idem (s : String) : jsFirstLine (jsFirstLine s) = jsFirstLine s := by
  show String.mk ((s.data.takeWhile fun c => decide (c ≠ '\n')).takeWhile
      fun c => decide (c ≠ '\n')) = _
  rw [List.takeWhile_idem]
  rfl

/-- C1: for every moveToken request whose amount exceeds the balance the read
returns, the handler answers the insufficient-balance text reporting have =
the read balance and need = the requested amount, and issues zero approval
calls and zero send calls - the single short-circuit path. -/
theorem moveToken_insufficient_short_circuit
    (env : ServerEnv) (p : Providers) (acct : String) (input : TransferInput) (b : Int)
    (hbal : p.balanceOf = .ok b) (hlt : b < input.amount) :
    (moveToken env p acct input).1 = .ok (insufficientMsg b input.amount) ∧
    (moveToken env p acct input).2.countP isApprove = 0 ∧
    (moveToken env p acct input).2.countP isSend = 0 := by
  simp [moveToken, hbal, hlt, isApprove, isSend]

theorem moveToken_insufficient_short_circuit_witness :
    (moveToken ⟨"0xrouter", "421614"⟩ ⟨.ok 3, .ok (), .ok ("0xtx", "0xmsg")⟩ "0xme"
        ⟨"0xtok", 5, "0xdest"⟩).1 = .ok (insufficientMsg 3 5) ∧
    (moveToken ⟨"0xrouter", "421614"⟩ ⟨.ok 3, .ok (), .ok ("0xtx", "0xmsg")⟩ "0xme"
        ⟨"0xtok", 5, "0xdest"⟩).2.countP isApprove = 0 ∧
    (moveToken ⟨"0xrouter", "421614"⟩ ⟨.ok 3, .ok (), .ok ("0xtx", "0xmsg")⟩ "0xme"
        ⟨"0xtok", 5, "0xdest"⟩).2.countP isSend = 0 :=
  moveToken_insufficient_short_circuit _ _ _ _ 3 rfl (by decide)

/-- C2: when the read balance is at least the requested amount and both the
approval and the send succeed, the handler answers the completion text
carrying exactly the txHash and messageId the send produced, and the trace is
the balance read, then the approval (submitted with waitForReceipt set, so it
is confirmed before proceeding), then the send - approval strictly before
send. -/
theorem moveToken_completed_order
    (env : ServerEnv) (p : Providers) (acct : String) (input : TransferInput)
    (b : Int) (tx mid : String)
    (hbal : p.balanceOf = .ok b) (hge : input.amount ≤ b)
    (happrove : p.approveRouter = .ok ())
    (hsend : p.transferTokens = .ok (tx, mid)) :
    moveToken env p acct input =
      (.ok (movedMsg input.amount input.tokenAddress input.destinationAccount tx mid),
       [.balanceRead input.tokenAddress acct,
        .approveRouter env.routerAddress input.tokenAddress input.amount true,
        .transferTokens env.routerAddress input.tokenAddress input.amount
          input.destinationAccount env.destinationChainSelector]) := by
  have hnl : ¬ (b < input.amount) := not_lt.mpr hge
  simp [moveToken, hbal, happrove, hsend, hnl]

theorem moveToken_completed_order_witness :
    moveToken ⟨"0xrouter", "421614"⟩ ⟨.ok 10, .ok (), .ok ("0xtx", "0xmsg")⟩ "0xme"
        ⟨"0xtok", 5, "0xdest"⟩ =
      (.ok (movedMsg 5 "0xtok" "0xdest" "0xtx" "0xmsg"),
       [.balanceRead "0xtok" "0xme",
        .approveRouter "0xrouter" "0xtok" 5 true,
        .transferTokens "0xrouter" "0xtok" 5 "0xdest" "421614"]) :=
  moveToken_completed_order _ _ _ _ 10 "0xtx" "0xmsg" rfl (by decide) rfl rfl

/-- C3: the send step is issued only when, in the same invocation, the
balance read succeeded with a balance not below the amount and the approval
succeeded; in particular a failed approval means the send is never
attempted. -/
theorem moveToken_no_send_without_approval
    (env : ServerEnv) (p : Providers) (acct : String) (input : TransferInput) :
    ((moveToken env p acct input).2.countP isSend ≠ 0 →
      ∃ b, p.balanceOf = .ok b ∧ ¬ (b < input.amount) ∧ p.approveRouter = .ok ()) ∧
    (∀ e, p.approveRouter = .error e →
      (moveToken env p acct input).2.countP isSend = 0) := by
  constructor
  · intro hs
    cases hbal : p.balanceOf with
    | error e => simp [moveToken, hbal, isSend] at hs
    | ok b =>
      by_cases hlt : b < input.amount
      · simp [moveToken, hbal, hlt, isSend] at hs
      · cases happ : p.approveRouter with
        | error e => simp [moveToken, hbal, hlt, happ, isSend] at hs
        | ok u => exact ⟨b, rfl, hlt, by cases u; rfl⟩
  · intro e he
    cases hbal : p.balanceOf with
    | error e2 => simp [moveToken, hbal, isSend]
    | ok b =>
      by_cases hlt : b < input.amount
      · simp [moveToken, hbal, hlt, isSend]
      · simp [moveToken, hbal, hlt, he, isSend]

theorem moveToken_no_send_without_approval_witness :
    (moveToken ⟨"0xrouter", "421614"⟩ ⟨.ok 10, .error "approve reverted", .ok ("0xtx", "0xmsg")⟩
        "0xme" ⟨"0xtok", 5, "0xdest"⟩).2.countP isSend = 0 :=
  (moveToken_no_send_without_approval ⟨"0xrouter", "421614"⟩
      ⟨.ok 10, .error "approve reverted", .ok ("0xtx", "0xmsg")⟩ "0xme"
      ⟨"0xtok", 5, "0xdest"⟩).2 "approve reverted" rfl

/-- C4 counterexample: with a sufficient balance and an approval that raises,
the handler settles to the raw provider error - an Except.error, not an ok
result carrying a structured Failed outcome (toOption is none, so no outcome
value of any form is returned). -/
theorem moveToken_raw_error_counterexample :
    (moveToken ⟨"0xrouter", "421614"⟩ ⟨.ok 10, .error "boom", .ok ("0xtx", "0xmsg")⟩ "0xme"
        ⟨"0xtok", 5, "0xdest"⟩).1 = .error "boom" ∧
    ((moveToken ⟨"0xrouter", "421614"⟩ ⟨.ok 10, .error "boom", .ok ("0xtx", "0xmsg")⟩ "0xme"
        ⟨"0xtok", 5, "0xdest"⟩).1).toOption = none :=
  ⟨rfl, rfl⟩

/-- C4 amended: any error a provider raises during the balance read, the
approval or the send propagates uncaught out of the handler, carrying that
provider's reason verbatim (the handler constructs no structured Failed
value), and no step is ever retried: each kind of external call is issued at
most once per invocation. -/
theorem moveToken_error_propagation_no_retry
    (env : ServerEnv) (p : Providers) (acct : String) (input : TransferInput) :
    (∀ e, p.balanceOf = .error e → (moveToken env p acct input).1 = .error e) ∧
    (∀ b e, p.balanceOf = .ok b → ¬ (b < input.amount) → p.approveRouter = .error e →
      (moveToken env p acct input).1 = .error e) ∧
    (∀ b e, p.balanceOf = .ok b → ¬ (b < input.amount) → p.approveRouter = .ok () →
      p.transferTokens = .error e → (moveToken env p acct input).1 = .error e) ∧
    ((moveToken env p acct input).2.countP isBalanceRead ≤ 1 ∧
     (moveToken env p acct input).2.countP isApprove ≤ 1 ∧
     (moveToken env p acct input).2.countP isSend ≤ 1) := by
  refine ⟨?_, ?_, ?_, ?_⟩
  · intro e he
    simp [moveToken, he]
  · intro b e hbal hnl happ
    simp [moveToken, hbal, hnl, happ]
  · intro b e hbal hnl happ hsend
    simp [moveToken, hbal, hnl, happ, hsend]
  · cases hbal : p.balanceOf with
    | error e => simp [moveToken, hbal, isBalanceRead, isApprove, isSend]
    | ok b =>
      by_cases hlt : b < input.amount
      · simp [moveToken, hbal, hlt, isBalanceRead, isApprove, isSend]
      · cases happ : p.approveRouter with
        | error e => simp [moveToken, hbal, hlt, happ, isBalanceRead, isApprove, isSend]
        | ok u =>
          cases hsend : p.transferTokens with
          | error e =>
            simp [moveToken, hbal, hlt, happ, hsend, isBalanceRead, isApprove, isSend]
          | ok r =>
            obtain ⟨tx, mid⟩ := r
            simp [moveToken, hbal, hlt, happ, hsend, isBalanceRead, isApprove, isSend]

theorem moveToken_error_propagation_no_retry_witness :
    (moveToken ⟨"0xrouter", "421614"⟩ ⟨.error "rpc down", .ok (), .ok ("0xtx", "0xmsg")⟩ "0xme"
        ⟨"0xtok", 5, "0xdest"⟩).1 = .error "rpc down" :=
  (moveToken_error_propagation_no_retry ⟨"0xrouter", "421614"⟩
      ⟨.error "rpc down", .ok (), .ok ("0xtx", "0xmsg")⟩ "0xme"
      ⟨"0xtok", 5, "0xdest"⟩).1 "rpc down" rfl

/-- C5: the handler enforces no unsignedness on the amount - for a negative
requested amount and a non-negative read balance the guard balance less-than
amount is false, so the insufficient-balance branch is skipped and the
handler proceeds to issue the approval (and, when the approval succeeds, the
send) with that negative amount. -/
theorem moveToken_negative_amount_skips_guard
    (env : ServerEnv) (p : Providers) (acct : String) (input : TransferInput) (b : Int)
    (hbal : p.balanceOf = .ok b) (hb : 0 ≤ b) (hneg : input.amount < 0) :
    ¬ (b < input.amount) ∧
    (moveToken env p acct input).2.take 2 =
      [.balanceRead input.tokenAddress acct,
       .approveRouter env.routerAddress input.tokenAddress input.amount true] ∧
    (p.approveRouter = .ok () →
      .transferTokens env.routerAddress input.tokenAddress input.amount
        input.destinationAccount env.destinationChainSelector ∈
          (moveToken env p acct input).2) := by
  have hnl : ¬ (b < input.amount) := by omega
  refine ⟨hnl, ?_, ?_⟩
  · cases happ : p.approveRouter with
    | error e => simp [moveToken, hbal, hnl, happ]
    | ok u =>
      cases hsend : p.transferTokens with
      | error e => simp [moveToken, hbal, hnl, happ, hsend]
      | ok r =>
        obtain ⟨tx, mid⟩ := r
        simp [moveToken, hbal, hnl, happ, hsend]
  · intro happ
    cases hsend : p.transferTokens with
    | error e => simp [moveToken, hbal, hnl, happ, hsend]
    | ok r =>
      obtain ⟨tx, mid⟩ := r
      simp [moveToken, hbal, hnl, happ, hsend]

theorem moveToken_negative_amount_skips_guard_witness :
    ¬ ((0 : Int) < (-5 : Int)) ∧
    (moveToken ⟨"0xrouter", "421614"⟩ ⟨.ok 0, .ok (), .ok ("0xtx", "0xmsg")⟩ "0xme"
        ⟨"0xtok", -5, "0xdest"⟩).2.take 2 =
      [.balanceRead "0xtok" "0xme", .approveRouter "0xrouter" "0xtok" (-5) true] ∧
    ((⟨.ok 0, .ok (), .ok ("0xtx", "0xmsg")⟩ : Providers).approveRouter = .ok () →
      .transferTokens "0xrouter" "0xtok" (-5) "0xdest" "421614" ∈
        (moveToken ⟨"0xrouter", "421614"⟩ ⟨.ok 0, .ok (), .ok ("0xtx", "0xmsg")⟩ "0xme"
          ⟨"0xtok", -5, "0xdest"⟩).2) :=
  moveToken_negative_amount_skips_guard ⟨"0xrouter", "421614"⟩
    ⟨.ok 0, .ok (), .ok ("0xtx", "0xmsg")⟩ "0xme" ⟨"0xtok", -5, "0xdest"⟩ 0
    rfl (by decide) (by decide)

/-- C6: a reply is dispatched as a tool invocation exactly when its first
line begins with the fixed TOOL: marker (from which the tool name and the
argument payload are then taken); everything after the first line is
discarded before parsing, so the parse of a reply equals the parse of its
first line alone; the reply whose first line is exactly TOOL: moveToken with
the three-field JSON payload parses to toolName moveToken with exactly those
three arguments; and a reply without the leading marker is never
dispatched. -/
theorem toolInvocation_detection
    (historyText : String) (toolExec : String → JObj → String) (followUp reply : String) :
    ((processTurn historyText reply toolExec followUp).dispatched ≠ [] ↔
      jsStartsWith (jsFirstLine reply) toolMarker = true) ∧
    parseToolLine reply = parseToolLine (jsFirstLine reply) ∧
    parseToolLine "TOOL: moveToken \x7b\"tokenAddress\":\"0xabc\",\"amount\":5,\"destinationAccount\":\"0xdef\"\x7d" =
      ("moveToken",
       [("tokenAddress", JValue.str "0xabc"), ("amount", JValue.num 5),
        ("destinationAccount", JValue.str "0xdef")]) ∧
    (jsStartsWith reply toolMarker = false →
      (processTurn historyText reply toolExec followUp).dispatched = []) := by
  refine ⟨?_, ?_, by decide, ?_⟩
  · rw [jsStartsWith_firstLine]
    cases hg : jsStartsWith reply toolMarker with
    | false =>
      cases hf : jsStartsWith followUp toolMarker with
      | false => simp [processTurn, hg, hf]
      | true => simp [processTurn, hg, hf]
    | true =>
      cases hf : jsStartsWith followUp toolMarker with
      | false => simp [processTurn, hg, hf]
      | true => simp [processTurn, hg, hf]
  · unfold parseToolLine
    rw [jsFirstLine_idem]
  · intro hg
    simp [processTurn, hg]

theorem toolInvocation_detection_witness :
    (processTurn "SYSTEM: greet" "What time is it?" stubExec "It is noon.").dispatched = [] :=
  (toolInvocation_detection "SYSTEM: greet" stubExec "It is noon."
      "What time is it?").2.2.2 (by decide)

/-- C7: the payload extraction accepts both the name-space-object and the
name-parenthesised-object surface syntaxes; strict JSON parsing is the first
tier and its result is used whenever it succeeds; when it fails, the manual
key:value scrape (quoted-string and integer values only) is the second tier,
shown succeeding on an unquoted-key payload; and when both tiers fail (an
unescaped-quote payload defeats both) the mapping is empty and the tool is
still dispatched rather than the turn aborted. -/
theorem toolArgs_three_tier :
    (parseToolLine "TOOL: moveToken \x7b\"amount\":5\x7d" =
        ("moveToken", [("amount", JValue.num 5)]) ∧
     parseToolLine "TOOL: moveToken(\x7b\"amount\":5\x7d)" =
        ("moveToken", [("amount", JValue.num 5)])) ∧
    (∀ a o, jsonParse a = some o → parseToolArgs a = o) ∧
    (jsonParse "\x7btokenAddress: \"0xabc\", amount: 5\x7d" = none ∧
     parseToolArgs "\x7btokenAddress: \"0xabc\", amount: 5\x7d" =
       [("tokenAddress", JValue.str "0xabc"), ("amount", JValue.num 5)]) ∧
    (jsonParse "\x7b\"tokenAddress\": \"0xa\"bc\"\x7d" = none ∧
     scrape "\x7b\"tokenAddress\": \"0xa\"bc\"\x7d" = [] ∧
     parseToolArgs "\x7b\"tokenAddress\": \"0xa\"bc\"\x7d" = [] ∧
     (processTurn "h" "TOOL: moveToken \x7b\"tokenAddress\": \"0xa\"bc\"\x7d" stubExec
         "done").dispatched = [("moveToken", [])]) := by
  refine ⟨by constructor <;> decide, ?_, by constructor <;> decide,
    by refine ⟨by decide, by decide, by decide, by decide⟩⟩
  intro a o h
  have hne : a.data.isEmpty = false := by
    cases hd : a.data with
    | nil =>
      exfalso
      unfold jsonParse at h
      rw [hd] at h
      simp [skipWs] at h
    | cons c cs => simp [hd]
  simp [parseToolArgs, hne, h]

theorem toolArgs_three_tier_witness :
    parseToolArgs "\x7b\"amount\":7\x7d" = [("amount", JValue.num 7)] :=
  toolArgs_three_tier.2.1 "\x7b\"amount\":7\x7d" [("amount", JValue.num 7)] (by decide)

/-- C8: at most one tool dispatch occurs per user turn; whenever a dispatch
occurred, the follow-up completion prompt ends with the explicit instruction
forbidding further tool invocation; and when the follow-up reply is itself
marker-shaped the driver substitutes the canned completion message into the
transcript while the dispatch count stays one. -/
theorem one_dispatch_per_turn
    (historyText reply : String) (toolExec : String → JObj → String) (followUp : String) :
    (processTurn historyText reply toolExec followUp).dispatched.length ≤ 1 ∧
    ((processTurn historyText reply toolExec followUp).dispatched ≠ [] →
      ∃ q, (processTurn historyText reply toolExec followUp).followUpPrompt =
        some (q ++ noToolInstruction)) ∧
    (jsStartsWith reply toolMarker = true → jsStartsWith followUp toolMarker = true →
      (processTurn historyText reply toolExec followUp).assistantMsg = cannedCompletion ∧
      (processTurn historyText reply toolExec followUp).dispatched.length = 1) := by
  refine ⟨?_, ?_, ?_⟩
  · cases hr : jsStartsWith reply toolMarker <;>
      cases hf : jsStartsWith followUp toolMarker <;> simp [processTurn, hr, hf]
  · intro hd
    cases hr : jsStartsWith reply toolMarker with
    | false => simp [processTurn, hr] at hd
    | true =>
      refine ⟨historyText ++ "\nTool result for " ++ (parseToolLine reply).1 ++ ": " ++
        toolExec (parseToolLine reply).1 (parseToolLine reply).2, ?_⟩
      cases hf : jsStartsWith followUp toolMarker with
      | false => simp [processTurn, hr, hf]
      | true => simp [processTurn, hr, hf]
  · intro hr hf
    constructor
    · simp [processTurn, hr, hf]
    · simp [processTurn, hr, hf]

theorem one_dispatch_per_turn_witness :
    (processTurn "SYSTEM: greet" "TOOL: helloWorld" stubExec
        "TOOL: getCurrentTime").assistantMsg = cannedCompletion ∧
    (processTurn "SYSTEM: greet" "TOOL: helloWorld" stubExec
        "TOOL: getCurrentTime").dispatched.length = 1 :=
  (one_dispatch_per_turn "SYSTEM: greet" "TOOL: helloWorld" stubExec
      "TOOL: getCurrentTime").2.2 (by decide) (by decide)

/-- C9 (code bug): an unsettled model completion is surfaced as a Timeout
error, but the message claims 30 seconds while the abort timer actually
fires only after 100000 milliseconds (100 seconds) - the message does not
state the elapsed duration that was waited; the tool wrapper, by contrast,
reports its true budget of timeoutMs/1000 seconds. -/
theorem llm_timeout_message_mismatch :
    callLLM .pending = .error llmTimeoutErrorMsg ∧
    llmTimeoutErrorMsg = "LLM request timed out after 30 seconds" ∧
    llmTimeoutMs = 100000 ∧
    llmTimeoutMs / 1000 = 100 ∧
    (100 : Nat) ≠ 30 ∧
    callToolWithTimeout .pending "moveToken" toolTimeoutDefaultMs =
      .error "Tool 'moveToken' timed out after 300 seconds" ∧
    toolTimeoutDefaultMs / 1000 = 300 := by
  refine ⟨rfl, rfl, rfl, rfl, by decide, rfl, rfl⟩

/-- C10 (code bug): with every required environment variable absent, the
server's start() still succeeds - it registers the three tools and listens
on port 3001 for any environment whatsoever - although validateConfig, had
any startup path invoked it, would have raised the error naming all four
missing variables; startup therefore does not fail fast on missing
configuration. -/
theorem startup_no_failfast_validation :
    serverStart ⟨none, none, none, none, none, none⟩ = .ok (registeredTools, 3001) ∧
    validateConfig ⟨none, none, none, none, none, none⟩ =
      .error "Missing required environment variables: rpcUrl, privateKey, routerAddress, destinationChainSelector" ∧
    (∀ e : Env, serverStart e = .ok (registeredTools, 3001)) :=
  ⟨rfl, rfl, fun _ => rfl⟩

end CcipAgent
